import Mathlib

/-!
Shallow embedding of the Voice-detection repository (src/main.py, src/model.py,
src/utils.py) for checking its natural-language specification.

Modelling conventions:
* A mono waveform is a `List ℚ` of samples; a sample rate is a `ℕ`.
* Library calls (numpy / librosa / soundfile / the wav2vec2 branch) are not
  code of this repository; they are supplied by an `AudioEnv` record of
  functions.  A library call that can raise a Python exception is modelled as
  returning `Except PyError` — the repository has no control over whether such
  a call succeeds, so every theorem quantifies over the environment.
* Python floats are modelled as exact rationals `ℚ`: each IEEE float value is
  a rational, and the repository arithmetic (threshold comparisons, adding
  fixed bonuses, 1 - score, rounding to 2 decimals) is embedded exactly over ℚ.
* A Python exception value is `PyError`: `valueError` for `ValueError` (mapped
  to HTTP 400 by the endpoint), `otherError` for every other exception class
  (mapped to HTTP 500).
-/

/-- A Python exception, split by the only distinction src/main.py makes:
`ValueError` versus everything else. -/
inductive PyError
  | valueError (msg : String)
  | otherError (msg : String)
deriving DecidableEq

/-- The message of an exception, Python `str(e)`. -/
def PyError.msg : PyError → String
  | .valueError m => m
  | .otherError m => m

/-- Result of `soundfile.read`: a mono array of samples, or a frames-by-channels
matrix (each inner list is one frame holding one sample per channel). -/
inductive SfData
  | mono (samples : List ℚ)
  | multi (frames : List (List ℚ))
deriving DecidableEq

/-- The library surface used by the repository.  Each field stands for one
external call; fields returning `Except PyError` model calls that may raise.
`npStd` models `np.std` on a list of floats (total on the nonempty lists the
code feeds it); `neuralRaw` models the wav2vec2 + classifier-head branch of
`VoiceDetectionModel.predict`, a sigmoid output. -/
structure AudioEnv where
  b64decode : String → Except PyError (List ℕ)
  sfRead : List ℕ → Except PyError (SfData × ℕ)
  resample : List ℚ → ℕ → ℕ → Except PyError (List ℚ)
  zcrMean : List ℚ → Except PyError ℚ
  centroidMean : List ℚ → ℕ → Except PyError ℚ
  rolloffMean : List ℚ → ℕ → Except PyError ℚ
  piptrack : List ℚ → ℕ → Except PyError (List (List ℚ × List ℚ))
  mfcc : List ℚ → ℕ → Except PyError (List (List ℚ))
  npStd : List ℚ → ℚ
  neuralRaw : List ℚ → ℕ → ℚ

/-- Mean of a list, `np.mean` along an axis (0 on an empty list, which the
code never feeds it). -/
def rowMean (r : List ℚ) : ℚ := r.sum / (r.length : ℚ)

/-- Channel collapse of src/utils.py lines 21-22: a multi-channel result of
`sf.read` is averaged across channels, a mono one is passed through. -/
def toMono : SfData → List ℚ
  | .mono samples => samples
  | .multi frames => frames.map rowMean

/-- Index of the first maximal element, `np.argmax` (0 on the empty list,
which real piptrack magnitudes never are). -/
def argmaxGo (best : ℕ) (bestVal : ℚ) (i : ℕ) : List ℚ → ℕ
  | [] => best
  | x :: xs => if bestVal < x then argmaxGo i x (i + 1) xs else argmaxGo best bestVal (i + 1) xs

/-- First index of the maximum of a list of magnitudes. -/
def argmaxIdx : List ℚ → ℕ
  | [] => 0
  | x :: xs => argmaxGo 0 x 1 xs

/-- One iteration of the loop in src/model.py lines 99-101: for frame `t`,
`index = magnitudes[:, t].argmax(); pitch = pitches[index, t]`.  A frame is the
pair (pitch column, magnitude column). -/
def framePitch (frame : List ℚ × List ℚ) : ℚ :=
  frame.1.getD (argmaxIdx frame.2) 0

/-- The `pitch_values` list of src/model.py lines 98-103: the per-frame argmax
pitch, kept only when `50 < pitch < 500`. -/
def pitchValuesOf (frames : List (List ℚ × List ℚ)) : List ℚ :=
  (frames.map framePitch).filter (fun p => decide (50 < p ∧ p < 500))

/-- src/model.py line 105:
`pitch_std = np.std(pitch_values) if len(pitch_values) > 10 else 0`. -/
def pitchStdOf (env : AudioEnv) (frames : List (List ℚ × List ℚ)) : ℚ :=
  let pv := pitchValuesOf frames
  if 10 < pv.length then env.npStd pv else 0

/-- The scalar features computed inside the `try` block of
`VoiceDetectionModel._apply_heuristics` (src/model.py lines 92-105). -/
structure HeurFeatures where
  zcr : ℚ
  spectralCentroid : ℚ
  spectralRolloff : ℚ
  pitchStd : ℚ
deriving DecidableEq

/-- The feature computation of src/model.py lines 92-105, in source order;
any raising library call aborts the whole block with its exception. -/
def computeHeurFeatures (env : AudioEnv) (waveform : List ℚ) (sr : ℕ) :
    Except PyError HeurFeatures := do
  let zcr ← env.zcrMean waveform
  let spectral_centroid ← env.centroidMean waveform sr
  let spectral_rolloff ← env.rolloffMean waveform sr
  let frames ← env.piptrack waveform sr
  pure ⟨zcr, spectral_centroid, spectral_rolloff, pitchStdOf env frames⟩

/-- The pitch-variation step function of src/model.py lines 112-126. -/
def baseScore (pitch_std : ℚ) : ℚ :=
  if pitch_std < 60 then 0.85
  else if pitch_std < 80 then 0.70
  else if pitch_std < 100 then 0.55
  else if pitch_std < 120 then 0.45
  else 0.30

/-- The `adjustments` accumulation of src/model.py lines 129-137: +0.05 if the
spectral centroid lies strictly between 2500 and 3800, +0.05 more if the zero
crossing rate lies strictly between 0.06 and 0.14. -/
def adjustments (spectral_centroid zcr : ℚ) : ℚ :=
  (if 2500 < spectral_centroid ∧ spectral_centroid < 3800 then 0.05 else 0) +
    (if 0.06 < zcr ∧ zcr < 0.14 then 0.05 else 0)

/-- src/model.py line 141: `max(0.0, min(1.0, final_score))`, written with
explicit comparisons so that it evaluates by kernel reduction; `clamp01_eq`
below identifies it with the max/min form. -/
def clamp01 (x : ℚ) : ℚ :=
  let m := if 1 ≤ x then 1 else x
  if m ≤ 0 then 0 else m

/-- The score the `try` block returns (src/model.py lines 140-145). -/
def heuristicScore (f : HeurFeatures) : ℚ :=
  clamp01 (baseScore f.pitchStd + adjustments f.spectralCentroid f.zcr)

/-- `VoiceDetectionModel._apply_heuristics` (src/model.py lines 87-149): the
feature computation plus threshold scoring inside `try`; any exception is
caught and the neutral 0.5 returned.  `raw_score` is the parameter the source
declares and never uses. -/
def apply_heuristics (env : AudioEnv) (waveform : List ℚ) (sr : ℕ)
    (raw_score : ℚ) : ℚ :=
  match computeHeurFeatures env waveform sr with
  | .ok f => heuristicScore f
  | .error _ => 0.5

/-- The five values the step function can produce (src/model.py lines 112-126). -/
def stepBases : List ℚ := [0.85, 0.70, 0.55, 0.45, 0.30]

/-- The step-function bands whose base score already classifies as AI
(exceeds 0.5): the AI branch of the scorer.  `aiBases_spec` proves this list
is exactly the AI side of `stepBases`. -/
def aiBases : List ℚ := [0.85, 0.70, 0.55]

/-- Every value `apply_heuristics` can return: the neutral 0.5 plus each band
base with each possible total adjustment in 0, 0.05, 0.10. -/
def scoreValues : List ℚ :=
  [0.5, 0.85, 0.90, 0.95, 0.70, 0.75, 0.80, 0.55, 0.60, 0.65, 0.45, 0.50, 0.30, 0.35, 0.40]

/-- Stand-in for the Python fixed-point formatting inside the explanation
f-strings; exact numeric rendering is presentation only, so the default
rational rendering is used. -/
def fmtQ (q : ℚ) : String := toString q

/-- The feature recomputation inside `_generate_explanation`
(src/model.py lines 156-169): zcr, spectral centroid and the filtered pitch
standard deviation, in source order (zcr is computed, can raise, and is unused
by the strings, exactly as in the source). -/
def explanationFeatures (env : AudioEnv) (waveform : List ℚ) (sr : ℕ) :
    Except PyError (ℚ × ℚ × ℚ) := do
  let zcr ← env.zcrMean waveform
  let spectral_centroid ← env.centroidMean waveform sr
  let frames ← env.piptrack waveform sr
  pure (zcr, spectral_centroid, pitchStdOf env frames)

/-- `VoiceDetectionModel._generate_explanation` (src/model.py lines 151-222):
tiered template strings, AI tiers at confidence 0.75 / 0.55 and human tiers at
0.65 / 0.45; any exception during the feature recomputation falls back to the
generic one-line explanation. -/
def generate_explanation (env : AudioEnv) (is_ai : Bool) (confidence : ℚ)
    (waveform : List ℚ) (sr : ℕ) : String :=
  match explanationFeatures env waveform sr with
  | .ok (_zcr, spectral_centroid, pitch_std) =>
    if is_ai then
      if 0.75 < confidence then
        "Strong AI characteristics detected: Extremely low pitch variation (" ++
          fmtQ pitch_std ++ " Hz indicates synthetic consistency), spectral centroid at " ++
          fmtQ spectral_centroid ++ " Hz shows artificial patterns, absence of natural " ++
          "vocal micro-variations. Confidence: " ++ fmtQ (confidence * 100) ++ " percent"
      else if 0.55 < confidence then
        "Moderate AI indicators: Low pitch variation (" ++ fmtQ pitch_std ++
          " Hz is below natural human range of 80-150 Hz), spectral features at " ++
          fmtQ spectral_centroid ++ " Hz suggest synthetic generation, robotic prosody " ++
          "patterns detected. Confidence: " ++ fmtQ (confidence * 100) ++ " percent"
      else
        "Slight AI tendencies: Pitch variation (" ++ fmtQ pitch_std ++
          " Hz) shows some synthetic characteristics, borderline case requiring further " ++
          "analysis. Confidence: " ++ fmtQ (confidence * 100) ++ " percent"
    else
      if 0.65 < confidence then
        "Strong human characteristics: Natural pitch variation (" ++ fmtQ pitch_std ++
          " Hz shows organic modulation in normal range), breathing patterns detected, " ++
          "emotional inflection present, typical human voice irregularities identified. " ++
          "Confidence: " ++ fmtQ (confidence * 100) ++ " percent"
      else if 0.45 < confidence then
        "Moderate human indicators: Pitch variation of " ++ fmtQ pitch_std ++
          " Hz within natural range (80-150 Hz), spectral features show organic voice " ++
          "production, natural prosody patterns present. Confidence: " ++
          fmtQ (confidence * 100) ++ " percent"
      else
        "Slight human tendencies: Pitch variation (" ++ fmtQ pitch_std ++
          " Hz) shows some natural characteristics, but features are borderline. " ++
          "Confidence: " ++ fmtQ (confidence * 100) ++ " percent"
  | .error _ =>
    "Classification: " ++ (if is_ai then "AI-generated" else "Human") ++
      " voice detected with " ++ fmtQ (confidence * 100) ++
      " percent confidence based on deep learning analysis."

/-- Python `round(x, 2)` on the values this pipeline produces.  (Python rounds
half to even; this rounds half up, and the two agree everywhere off exact
half-cent ties, which the pipeline values — all multiples of 1/20 — never hit.)
Written with an explicit floor so it evaluates; `round2_eq` identifies it with
Mathlib round. -/
def round2 (q : ℚ) : ℚ := ((⌊100 * q + 1 / 2⌋ : ℤ) : ℚ) / 100

/-- `VoiceDetectionModel.predict` (src/model.py lines 52-85) given the raw
sigmoid output of the neural branch: heuristic score, classification at the
0.5 threshold, confidence, explanation, confidence rounded to 2 decimals. -/
def predictCore (env : AudioEnv) (waveform : List ℚ) (sr : ℕ) (raw_score : ℚ) :
    String × ℚ × String :=
  let enhanced_score := apply_heuristics env waveform sr raw_score
  let classification := if 0.5 < enhanced_score then "AI_GENERATED" else "HUMAN"
  let final_confidence := if 0.5 < enhanced_score then enhanced_score else 1 - enhanced_score
  let explanation :=
    generate_explanation env (decide ((0.5 : ℚ) < enhanced_score)) final_confidence waveform sr
  (classification, round2 final_confidence, explanation)

/-- `VoiceDetectionModel.predict` with the neural branch evaluated through the
environment (src/model.py lines 56-68). -/
def predict (env : AudioEnv) (waveform : List ℚ) (sr : ℕ) : String × ℚ × String :=
  predictCore env waveform sr (env.neuralRaw waveform sr)

/-- The `try` body of `decode_base64_audio` (src/utils.py lines 12-24):
base64 decode, parse via `sf.read`, collapse to mono. -/
def decodeBody (env : AudioEnv) (base64_string : String) :
    Except PyError (List ℚ × ℕ) := do
  let audio_bytes ← env.b64decode base64_string
  let (data, sample_rate) ← env.sfRead audio_bytes
  pure (toMono data, sample_rate)

/-- `decode_base64_audio` (src/utils.py lines 7-27): any exception from the
body is re-raised as `ValueError("Failed to decode audio: " + str(e))`. -/
def decode_base64_audio (env : AudioEnv) (base64_string : String) :
    Except PyError (List ℚ × ℕ) :=
  match decodeBody env base64_string with
  | .ok r => .ok r
  | .error e => .error (.valueError ("Failed to decode audio: " ++ e.msg))

/-- The features dict built by `extract_audio_features`
(src/utils.py lines 39-55). -/
structure FeatureSet where
  spectral_centroid : ℚ
  spectral_rolloff : ℚ
  zero_crossing_rate : ℚ
  mfcc_mean : List ℚ
  mfcc_std : List ℚ
deriving DecidableEq

/-- The feature computations of src/utils.py lines 39-55, in source order, on
an already-resampled waveform; no exception is caught here. -/
def computeFeatureSet (env : AudioEnv) (waveform : List ℚ) (sr : ℕ) :
    Except PyError FeatureSet := do
  let spectral_centroid ← env.centroidMean waveform sr
  let spectral_rolloff ← env.rolloffMean waveform sr
  let zero_crossing_rate ← env.zcrMean waveform
  let mfccs ← env.mfcc waveform sr
  pure ⟨spectral_centroid, spectral_rolloff, zero_crossing_rate,
    mfccs.map rowMean, mfccs.map env.npStd⟩

/-- `extract_audio_features` (src/utils.py lines 29-57): resample to 16000 Hz
when the input rate differs, then compute the features; there is no exception
handler anywhere in this function, so any library exception propagates. -/
def extract_audio_features (env : AudioEnv) (waveform : List ℚ) (sr : ℕ) :
    Except PyError (FeatureSet × List ℚ × ℕ) :=
  if sr ≠ 16000 then
    match env.resample waveform sr 16000 with
    | .error e => .error e
    | .ok resampled =>
      (computeFeatureSet env resampled 16000).map (fun fs => (fs, resampled, 16000))
  else
    (computeFeatureSet env waveform sr).map (fun fs => (fs, waveform, sr))

/-- The request body of the endpoint (src/main.py lines 32-41); the pydantic
field validation happens before the handler runs and is outside the claims. -/
structure VoiceDetectionRequest where
  language : String
  audioFormat : String
  audioBase64 : String

/-- What the handler produces: a success body, or an `HTTPException` with its
status code and detail string. -/
inductive HTTPOutcome
  | success (language classification : String) (confidenceScore : ℚ) (explanation : String)
  | httpError (statusCode : ℕ) (detail : String)
deriving DecidableEq

/-- The `try` body of the `detect_voice` handler (src/main.py lines 85-103):
decode, extract, predict. -/
def detectBody (env : AudioEnv) (request : VoiceDetectionRequest) :
    Except PyError (String × ℚ × String) := do
  let (waveform, sample_rate) ← decode_base64_audio env request.audioBase64
  let (_features, waveform2, sr) ← extract_audio_features env waveform sample_rate
  pure (predict env waveform2 sr)

/-- The `detect_voice` handler (src/main.py lines 74-114): the body above; a
`ValueError` escaping it becomes HTTP 400, any other exception HTTP 500. -/
def detect_voice (env : AudioEnv) (request : VoiceDetectionRequest) : HTTPOutcome :=
  match detectBody env request with
  | .ok (classification, confidence, explanation) =>
    .success request.language classification confidence explanation
  | .error (.valueError m) => .httpError 400 ("Invalid input: " ++ m)
  | .error (.otherError m) => .httpError 500 ("Internal server error: " ++ m)

/-! Concrete environments used to instantiate the theorems.  Each models a
plausible run of the libraries: values are ones the real libraries can return
on suitable audio (`npStd` is only consulted at lists where its stated value
is the true standard deviation). -/

/-- An environment where every library call succeeds; piptrack sees no frames
(a too-short clip), so no pitch sample survives and pitch variation is 0. -/
def pureEnv : AudioEnv where
  b64decode := fun _ => .ok [0]
  sfRead := fun _ => .ok (.mono [0], 16000)
  resample := fun w _ _ => .ok w
  zcrMean := fun _ => .ok 0.5
  centroidMean := fun _ _ => .ok 1000
  rolloffMean := fun _ _ => .ok 4000
  piptrack := fun _ _ => .ok []
  mfcc := fun _ _ => .ok []
  npStd := fun _ => 0
  neuralRaw := fun _ _ => 0.5

/-- Ten piptrack frames whose argmax pitches are five 100 Hz and five 110 Hz
values, all inside the 50-500 Hz band: exactly 10 samples survive the filter,
and the true `np.std` of the surviving list is exactly 5. -/
def frames10 : List (List ℚ × List ℚ) :=
  [([100], [1]), ([100], [1]), ([100], [1]), ([100], [1]), ([100], [1]),
   ([110], [1]), ([110], [1]), ([110], [1]), ([110], [1]), ([110], [1])]

/-- `pureEnv` with piptrack returning `frames10`; `npStd` returns 5, the exact
standard deviation of the surviving pitch list. -/
def env10 : AudioEnv :=
  { pureEnv with piptrack := fun _ _ => .ok frames10, npStd := fun _ => 5 }

/-- An environment whose zero-crossing-rate call raises, making the feature
computation inside the scorer fail. -/
def failEnv : AudioEnv :=
  { pureEnv with zcrMean := fun _ => .error (.otherError "zcr failed") }

/-- An environment where decoding succeeds at 44100 Hz but `librosa.resample`
raises a non-ValueError exception. -/
def resampleFailEnv : AudioEnv :=
  { pureEnv with
    sfRead := fun _ => .ok (.mono [0], 44100),
    resample := fun _ _ _ => .error (.otherError "resample failed") }

/-- An environment where decoding succeeds at 16000 Hz but the MFCC feature
call inside `extract_audio_features` raises a non-ValueError exception. -/
def mfccFailEnv : AudioEnv :=
  { pureEnv with mfcc := fun _ _ => .error (.otherError "mfcc failed") }

/-- An environment whose base64 decode raises. -/
def badB64Env : AudioEnv :=
  { pureEnv with b64decode := fun _ => .error (.valueError "Invalid base64-encoded string") }

/-- An environment whose base64 decode succeeds but whose bytes are not a
valid audio container, so `sf.read` raises. -/
def badContainerEnv : AudioEnv :=
  { pureEnv with sfRead := fun _ => .error (.otherError "Format not recognised") }

/-- A fixed request used to instantiate endpoint-level theorems. -/
def exampleRequest : VoiceDetectionRequest :=
  { language := "English", audioFormat := "mp3", audioBase64 := "AAAA" }

/-! General lemmas about the embedded operations. -/

/-- Bind on a successful Except result applies the continuation. -/
theorem exBind_ok {ε α β : Type} (a : α) (f : α → Except ε β) :
    (Except.ok a : Except ε α) >>= f = f a := rfl

/-- Bind on a failed Except result propagates the exception. -/
theorem exBind_error {ε α β : Type} (e : ε) (f : α → Except ε β) :
    (Except.error e : Except ε α) >>= f = Except.error e := rfl

/-- The executable clamp is the `max(0.0, min(1.0, x))` of src/model.py line 141. -/
theorem clamp01_eq (x : ℚ) : clamp01 x = max 0 (min 1 x) := by
  unfold clamp01
  rcases le_or_lt 1 x with h | h
  · rw [min_eq_left h, if_pos h, if_neg (by norm_num), max_eq_right (by norm_num)]
  · rw [if_neg (not_le.mpr h), min_eq_right h.le]
    rcases le_or_lt x 0 with h0 | h0
    · rw [if_pos h0, max_eq_left h0]
    · rw [if_neg (not_le.mpr h0), max_eq_right h0.le]

/-- The executable two-decimal rounding is rounding to the nearest multiple
of 1/100. -/
theorem round2_eq (q : ℚ) : round2 q = ((round (100 * q) : ℤ) : ℚ) / 100 := by
  unfold round2
  rw [round_eq]

/-- The step function only takes its five band values. -/
theorem baseScore_cases (p : ℚ) :
    baseScore p = 0.85 ∨ baseScore p = 0.70 ∨ baseScore p = 0.55 ∨
      baseScore p = 0.45 ∨ baseScore p = 0.30 := by
  unfold baseScore
  split_ifs <;> simp

/-- The bonus total is 0, 0.05 or 0.10. -/
theorem adjustments_cases (sc zcr : ℚ) :
    adjustments sc zcr = 0 ∨ adjustments sc zcr = 0.05 ∨ adjustments sc zcr = 0.10 := by
  unfold adjustments
  split_ifs <;> norm_num

/-- The bonus total is never negative. -/
theorem adjustments_nonneg (sc zcr : ℚ) : 0 ≤ adjustments sc zcr := by
  unfold adjustments
  split_ifs <;> norm_num

/-- The score of a successful feature computation is one of the finitely many
band-plus-bonus values. -/
theorem heuristicScore_mem (f : HeurFeatures) : heuristicScore f ∈ scoreValues := by
  unfold heuristicScore
  rcases baseScore_cases f.pitchStd with hb | hb | hb | hb | hb <;>
    rcases adjustments_cases f.spectralCentroid f.zcr with ha | ha | ha <;>
      rw [hb, ha] <;> norm_num [clamp01, scoreValues]

/-- Whatever the environment does, `apply_heuristics` returns one of the
finitely many band-plus-bonus values or the neutral 0.5. -/
theorem apply_heuristics_mem (env : AudioEnv) (w : List ℚ) (sr : ℕ) (raw : ℚ) :
    apply_heuristics env w sr raw ∈ scoreValues := by
  unfold apply_heuristics
  cases hcf : computeHeurFeatures env w sr with
  | ok f => exact heuristicScore_mem f
  | error e => norm_num [scoreValues]

/-- Every possible score lies in [0, 1]. -/
theorem scoreValues_bounds (s : ℚ) (hs : s ∈ scoreValues) : 0 ≤ s ∧ s ≤ 1 := by
  simp only [scoreValues, List.mem_cons, List.not_mem_nil, or_false] at hs
  rcases hs with rfl | rfl | rfl | rfl | rfl | rfl | rfl | rfl | rfl | rfl | rfl | rfl |
    rfl | rfl | rfl <;> norm_num

/-- The pre-rounding confidence of every possible score lies in [1/2, 0.95]. -/
theorem scoreValues_conf_bounds (s : ℚ) (hs : s ∈ scoreValues) :
    0.5 ≤ (if (0.5 : ℚ) < s then s else 1 - s) ∧
      (if (0.5 : ℚ) < s then s else 1 - s) ≤ 0.95 := by
  simp only [scoreValues, List.mem_cons, List.not_mem_nil, or_false] at hs
  rcases hs with rfl | rfl | rfl | rfl | rfl | rfl | rfl | rfl | rfl | rfl | rfl | rfl |
    rfl | rfl | rfl <;> norm_num

/-- Two-decimal rounding fixes every possible confidence value (they are all
multiples of 1/20). -/
theorem scoreValues_round2_conf (s : ℚ) (hs : s ∈ scoreValues) :
    round2 (if (0.5 : ℚ) < s then s else 1 - s) = (if (0.5 : ℚ) < s then s else 1 - s) := by
  simp only [scoreValues, List.mem_cons, List.not_mem_nil, or_false] at hs
  rcases hs with rfl | rfl | rfl | rfl | rfl | rfl | rfl | rfl | rfl | rfl | rfl | rfl |
    rfl | rfl | rfl <;> norm_num [round2, Int.floor_eq_iff]

/-! The claims. -/

/-- C1: for every waveform and sample rate (and every library behaviour),
`predict` classifies AI_GENERATED exactly when the heuristic-enhanced score is
strictly greater than 0.5 and HUMAN otherwise; the returned confidence is the
score when AI_GENERATED and 1 minus the score otherwise, rounded to 2 decimal
places, and lies in [0, 1]. -/
theorem C1_predict_classification (env : AudioEnv) (waveform : List ℚ) (sr : ℕ) :
    ((predict env waveform sr).1 = "AI_GENERATED" ↔
        0.5 < apply_heuristics env waveform sr (env.neuralRaw waveform sr)) ∧
    ((predict env waveform sr).1 = "HUMAN" ↔
        ¬ 0.5 < apply_heuristics env waveform sr (env.neuralRaw waveform sr)) ∧
    (predict env waveform sr).2.1 =
      round2 (if 0.5 < apply_heuristics env waveform sr (env.neuralRaw waveform sr)
        then apply_heuristics env waveform sr (env.neuralRaw waveform sr)
        else 1 - apply_heuristics env waveform sr (env.neuralRaw waveform sr)) ∧
    0 ≤ (predict env waveform sr).2.1 ∧ (predict env waveform sr).2.1 ≤ 1 := by
  have hmem := apply_heuristics_mem env waveform sr (env.neuralRaw waveform sr)
  have hconf := scoreValues_conf_bounds _ hmem
  have hround := scoreValues_round2_conf _ hmem
  simp only [predict, predictCore]
  refine ⟨?_, ?_, ?_, ?_, ?_⟩
  · by_cases h : (0.5 : ℚ) < apply_heuristics env waveform sr (env.neuralRaw waveform sr) <;>
      simp [h]
  · by_cases h : (0.5 : ℚ) < apply_heuristics env waveform sr (env.neuralRaw waveform sr) <;>
      simp [h]
  · trivial
  · rw [hround]; linarith [hconf.1]
  · rw [hround]; linarith [hconf.2]

/-- C9: the triple `predict` returns is independent of the neural branch's raw
score: `predictCore` gives the same classification, confidence and explanation
for any two raw scores (the `raw_score` parameter of `_apply_heuristics` is
never used), and replacing the whole neural branch in the environment does not
change `predict`. -/
theorem C9_raw_score_independent (env : AudioEnv) (waveform : List ℚ) (sr : ℕ) (r₁ r₂ : ℚ) :
    predictCore env waveform sr r₁ = predictCore env waveform sr r₂ ∧
      ∀ g : List ℚ → ℕ → ℚ,
        predict { env with neuralRaw := g } waveform sr = predict env waveform sr :=
  ⟨rfl, fun _ => rfl⟩

/-- C5: an exception anywhere in the feature computation inside
`_apply_heuristics` is not propagated (the function totally returns a score)
and the result is exactly the neutral 0.5. -/
theorem C5_heuristics_error_neutral (env : AudioEnv) (waveform : List ℚ) (sr : ℕ)
    (raw : ℚ) (e : PyError) (h : computeHeurFeatures env waveform sr = .error e) :
    apply_heuristics env waveform sr raw = 0.5 := by
  unfold apply_heuristics
  rw [h]

/-- Witness for C5 at a concrete input: in `failEnv` the zero-crossing-rate
call raises, and the scorer returns 0.5. -/
theorem C5_witness : apply_heuristics failEnv [0] 16000 0.7 = 0.5 :=
  C5_heuristics_error_neutral failEnv [0] 16000 0.7 (.otherError "zcr failed") rfl

/-- The `aiBases` list is exactly the set of step-function bands exceeding
the 0.5 classification threshold. -/
theorem aiBases_spec (b : ℚ) : b ∈ aiBases ↔ b ∈ stepBases ∧ 0.5 < b := by
  simp only [aiBases, stepBases, List.mem_cons, List.not_mem_nil, or_false]
  constructor
  · rintro (rfl | rfl | rfl) <;> norm_num
  · rintro ⟨rfl | rfl | rfl | rfl | rfl, h⟩ <;> norm_num at h ⊢

/-- Inversion for a successful run of the scorer's feature computation: each
library call succeeded, and the features are assembled from their results. -/
theorem computeHeurFeatures_ok (env : AudioEnv) (w : List ℚ) (sr : ℕ) (f : HeurFeatures)
    (hf : computeHeurFeatures env w sr = .ok f) :
    ∃ zcr sc ro frames, env.zcrMean w = .ok zcr ∧ env.centroidMean w sr = .ok sc ∧
      env.rolloffMean w sr = .ok ro ∧ env.piptrack w sr = .ok frames ∧
      f = ⟨zcr, sc, ro, pitchStdOf env frames⟩ := by
  unfold computeHeurFeatures at hf
  cases hz : env.zcrMean w with
  | error e => rw [hz] at hf; simp [Bind.bind, Except.bind] at hf
  | ok zcr =>
  rw [hz] at hf
  cases hc : env.centroidMean w sr with
  | error e => rw [hc] at hf; simp [Bind.bind, Except.bind] at hf
  | ok sc =>
  rw [hc] at hf
  cases hr : env.rolloffMean w sr with
  | error e => rw [hr] at hf; simp [Bind.bind, Except.bind] at hf
  | ok ro =>
  rw [hr] at hf
  cases hp : env.piptrack w sr with
  | error e => rw [hp] at hf; simp [Bind.bind, Except.bind] at hf
  | ok frames =>
  rw [hp] at hf
  simp only [Bind.bind, Except.bind, pure, Except.pure, Except.ok.injEq] at hf
  exact ⟨zcr, sc, ro, frames, rfl, rfl, rfl, rfl, hf.symm⟩

/-- Any score at least `a` stays at least `a` after clamping, when `a ≤ 1`. -/
theorem le_clamp01 (a x : ℚ) (hax : a ≤ x) (ha1 : a ≤ 1) : a ≤ clamp01 x := by
  rw [clamp01_eq]
  exact le_trans (le_min ha1 hax) (le_max_right 0 (min 1 x))

/-- C2 counterexample: on a run where no pitch sample survives the filter
(pitch-variation 0), the scorer's base score is 0.85, the band of the HIGHEST
confidence, while the lowest-confidence band of the AI branch is 0.55 — the
claim's "lowest-confidence band" is false at this input. -/
theorem C2_counterexample :
    pitchStdOf pureEnv [] = 0 ∧
    baseScore 0 = 0.85 ∧
    apply_heuristics pureEnv [0] 16000 0.5 = 0.85 ∧
    (0.55 ∈ aiBases ∧ ∀ b ∈ aiBases, 0.55 ≤ b) ∧
    baseScore 0 ≠ 0.55 := by
  refine ⟨rfl, by norm_num [baseScore], ?_, ⟨?_, ?_⟩, by norm_num [baseScore]⟩
  · show heuristicScore ⟨0.5, 1000, 4000, 0⟩ = 0.85
    norm_num [heuristicScore, baseScore, adjustments, clamp01]
  · norm_num [aiBases]
  · intro b hb
    simp only [aiBases, List.mem_cons, List.not_mem_nil, or_false] at hb
    rcases hb with rfl | rfl | rfl <;> norm_num

/-- C2 amended: whenever the scorer's feature computation succeeds with
pitch-variation 0, the scorer reports AI_GENERATED with the base score 0.85
of the highest-confidence band it defines for the AI branch (not the
lowest-confidence one). -/
theorem C2_pitchvar_zero_ai (env : AudioEnv) (waveform : List ℚ) (sr : ℕ) (raw : ℚ)
    (f : HeurFeatures) (hf : computeHeurFeatures env waveform sr = .ok f)
    (hp : f.pitchStd = 0) :
    baseScore f.pitchStd = 0.85 ∧
    (∀ b ∈ aiBases, b ≤ baseScore f.pitchStd) ∧
    0.85 ≤ apply_heuristics env waveform sr raw ∧
    (predictCore env waveform sr raw).1 = "AI_GENERATED" := by
  have hbase : baseScore f.pitchStd = 0.85 := by rw [hp]; norm_num [baseScore]
  have hscore : 0.85 ≤ apply_heuristics env waveform sr raw := by
    simp only [apply_heuristics, hf]
    unfold heuristicScore
    refine le_clamp01 _ _ ?_ (by norm_num)
    have := adjustments_nonneg f.spectralCentroid f.zcr
    rw [hbase] at *
    linarith
  refine ⟨hbase, ?_, hscore, ?_⟩
  · intro b hb
    rw [hbase]
    simp only [aiBases, List.mem_cons, List.not_mem_nil, or_false] at hb
    rcases hb with rfl | rfl | rfl <;> norm_num
  · simp only [predictCore]
    rw [if_pos (by linarith : (0.5 : ℚ) < apply_heuristics env waveform sr raw)]

/-- Witness for C2 amended at a concrete input: a clip whose pitch track is
empty is classified AI_GENERATED with base score 0.85. -/
theorem C2_witness :
    baseScore (0 : ℚ) = 0.85 ∧ (predictCore pureEnv [0] 16000 0.5).1 = "AI_GENERATED" := by
  have h := C2_pitchvar_zero_ai pureEnv [0] 16000 0.5 ⟨0.5, 1000, 4000, 0⟩ rfl rfl
  exact ⟨h.1, h.2.2.2⟩

/-- C3 counterexample: ten piptrack frames whose argmax pitches all survive
the 50-500 Hz filter.  Exactly 10 samples survive — not fewer than 10 — yet
the code defines pitch-variation as 0 (the gate is `> 10`, not `>= 10`), and
the library standard deviation of the surviving track is 5, not 0.  (`env10`
returns 5 for `np.std`, the true standard deviation of the surviving list:
five samples at 100 Hz and five at 110 Hz have mean 105 and deviation 5.) -/
theorem C3_counterexample :
    (pitchValuesOf frames10).length = 10 ∧
    pitchStdOf env10 frames10 = 0 ∧
    computeHeurFeatures env10 [0] 16000 = .ok ⟨0.5, 1000, 4000, 0⟩ ∧
    env10.npStd (pitchValuesOf frames10) = 5 ∧ (5 : ℚ) ≠ 0 :=
  ⟨by decide, by decide, rfl, rfl, by norm_num⟩

/-- C3 amended: in the feature computation, pitch-variation is 0 exactly when
10 or fewer pitch samples survive the 50-500 Hz filter (the source gate is
`len(pitch_values) > 10`), and with 11 or more surviving samples it equals the
library standard deviation of the filtered pitch track. -/
theorem C3_pitch_std_rule (env : AudioEnv) (waveform : List ℚ) (sr : ℕ)
    (f : HeurFeatures) (frames : List (List ℚ × List ℚ))
    (hp : env.piptrack waveform sr = .ok frames)
    (hf : computeHeurFeatures env waveform sr = .ok f) :
    f.pitchStd = if 10 < (pitchValuesOf frames).length
      then env.npStd (pitchValuesOf frames) else 0 := by
  obtain ⟨zcr, sc, ro, frames2, -, -, -, hp2, rfl⟩ :=
    computeHeurFeatures_ok env waveform sr f hf
  rw [hp] at hp2
  cases hp2
  rfl

/-- Witness for C3 amended at a concrete input: with exactly 10 surviving
samples the computed pitch-variation is the `else` branch, 0. -/
theorem C3_witness :
    (⟨0.5, 1000, 4000, 0⟩ : HeurFeatures).pitchStd =
      if 10 < (pitchValuesOf frames10).length
        then env10.npStd (pitchValuesOf frames10) else 0 :=
  C3_pitch_std_rule env10 [0] 16000 ⟨0.5, 1000, 4000, 0⟩ frames10 rfl rfl

/-- The clamp always lands in [0, 1]. -/
theorem clamp01_bounds (x : ℚ) : 0 ≤ clamp01 x ∧ clamp01 x ≤ 1 := by
  rw [clamp01_eq]
  exact ⟨le_max_left 0 (min 1 x), max_le (by norm_num) (min_le_left 1 x)⟩

/-- C4 counterexample: at spectral centroid exactly 2500 (inside the claim's
closed interval [2500, 3800]) and zero-crossing rate 0.1 (inside
[0.06, 0.14]), both bonuses fire under the claim's reading, yet the code adds
only 0.05 — strictly less than the claimed minimal combined bonus of 0.10,
because the source conditions are strict inequalities. -/
theorem C4_counterexample :
    ((2500 : ℚ) ≤ 2500 ∧ (2500 : ℚ) ≤ 3800) ∧
    ((0.06 : ℚ) ≤ 0.1 ∧ (0.1 : ℚ) ≤ 0.14) ∧
    adjustments 2500 0.1 = 0.05 ∧ ¬ (0.10 ≤ adjustments 2500 0.1) := by
  norm_num [adjustments]

/-- C4 amended: the base AI-probability is a monotonically non-increasing step
function of pitch-variation; the bonuses fire when the spectral centroid lies
strictly between 2500 and 3800 Hz and/or the zero-crossing rate lies strictly
between 0.06 and 0.14 (open intervals), totalling exactly +0.10 when both
fire (which is within the claimed +0.10 to +0.20); and the final score is
clamped to [0, 1]. -/
theorem C4_step_monotone_bonus :
    (∀ p q : ℚ, p ≤ q → baseScore q ≤ baseScore p) ∧
    (∀ sc zcr : ℚ, 2500 < sc → sc < 3800 → 0.06 < zcr → zcr < 0.14 →
      adjustments sc zcr = 0.10) ∧
    (∀ f : HeurFeatures, 0 ≤ heuristicScore f ∧ heuristicScore f ≤ 1) := by
  refine ⟨?_, ?_, ?_⟩
  · intro p q h
    unfold baseScore
    split_ifs <;> linarith
  · intro sc zcr h1 h2 h3 h4
    unfold adjustments
    rw [if_pos ⟨h1, h2⟩, if_pos ⟨h3, h4⟩]
    norm_num
  · intro f
    exact clamp01_bounds _

/-- Witness for C4 at concrete inputs: the band at pitch-variation 100 is at
most the band at 50, both bonuses firing at centroid 3000 and zcr 0.1 add
exactly 0.10, and a concrete score is clamped into [0, 1]. -/
theorem C4_witness :
    baseScore 100 ≤ baseScore 50 ∧ adjustments 3000 0.1 = 0.10 ∧
      (0 ≤ heuristicScore ⟨0.5, 1000, 4000, 0⟩ ∧ heuristicScore ⟨0.5, 1000, 4000, 0⟩ ≤ 1) :=
  ⟨C4_step_monotone_bonus.1 50 100 (by norm_num),
   C4_step_monotone_bonus.2.1 3000 0.1 (by norm_num) (by norm_num) (by norm_num) (by norm_num),
   C4_step_monotone_bonus.2.2 ⟨0.5, 1000, 4000, 0⟩⟩

/-- C10: the heuristic score is always one of the finitely many values built
from its five bands and three possible bonus totals (or exactly 0.5 on an
internal error), the confidence `predict` returns is at least 0.5 and at most
0.95, and an internal heuristics error yields classification HUMAN with
confidence exactly 0.5. -/
theorem C10_confidence_bounds (env : AudioEnv) (waveform : List ℚ) (sr : ℕ) :
    apply_heuristics env waveform sr (env.neuralRaw waveform sr) ∈ scoreValues ∧
    0.5 ≤ (predict env waveform sr).2.1 ∧ (predict env waveform sr).2.1 ≤ 0.95 ∧
    ∀ e, computeHeurFeatures env waveform sr = .error e →
      (predict env waveform sr).1 = "HUMAN" ∧ (predict env waveform sr).2.1 = 0.5 := by
  have hmem := apply_heuristics_mem env waveform sr (env.neuralRaw waveform sr)
  have hconf := scoreValues_conf_bounds _ hmem
  have hround := scoreValues_round2_conf _ hmem
  refine ⟨hmem, ?_, ?_, ?_⟩
  · simp only [predict, predictCore]
    rw [hround]
    exact hconf.1
  · simp only [predict, predictCore]
    rw [hround]
    exact hconf.2
  · intro e he
    have hs : apply_heuristics env waveform sr (env.neuralRaw waveform sr) = 0.5 := by
      unfold apply_heuristics
      rw [he]
    constructor
    · simp only [predict, predictCore]
      rw [hs, if_neg (by norm_num)]
    · simp only [predict, predictCore]
      rw [hs, if_neg (by norm_num)]
      norm_num [round2, Int.floor_eq_iff]

/-- Witness for C10 at a concrete input: in `failEnv` (heuristics feature
computation raises) the prediction is HUMAN with confidence exactly 0.5. -/
theorem C10_witness :
    (predict failEnv [0] 16000).1 = "HUMAN" ∧ (predict failEnv [0] 16000).2.1 = 0.5 :=
  (C10_confidence_bounds failEnv [0] 16000).2.2.2 (.otherError "zcr failed") rfl

/-- C6: when the base64 string does not decode, or its bytes are not a valid
audio container (the `sf.read` call raises), `decode_base64_audio` fails with
a `ValueError`, and the endpoint answers HTTP 400 — never a 500-class error. -/
theorem C6_decode_client_error (env : AudioEnv) (req : VoiceDetectionRequest)
    (h : (∃ e, env.b64decode req.audioBase64 = .error e) ∨
      (∃ bs e, env.b64decode req.audioBase64 = .ok bs ∧ env.sfRead bs = .error e)) :
    (∃ m, decode_base64_audio env req.audioBase64 = .error (.valueError m)) ∧
    (∃ m, detect_voice env req = .httpError 400 m) := by
  have hbody : ∃ e2, decodeBody env req.audioBase64 = .error e2 := by
    rcases h with ⟨e, he⟩ | ⟨bs, e, hok, herr⟩
    · exact ⟨e, by unfold decodeBody; rw [he, exBind_error]⟩
    · refine ⟨e, ?_⟩
      unfold decodeBody
      rw [hok, exBind_ok]
      simp only []
      rw [herr, exBind_error]
  obtain ⟨e2, hb⟩ := hbody
  have hdec : decode_base64_audio env req.audioBase64 =
      .error (.valueError ("Failed to decode audio: " ++ e2.msg)) := by
    unfold decode_base64_audio
    rw [hb]
  refine ⟨⟨"Failed to decode audio: " ++ e2.msg, hdec⟩,
    ⟨"Invalid input: " ++ ("Failed to decode audio: " ++ e2.msg), ?_⟩⟩
  unfold detect_voice detectBody
  rw [hdec, exBind_error]

/-- Witness for C6 at a concrete input: a malformed base64 payload produces a
`ValueError` from the decoder and HTTP 400 from the endpoint. -/
theorem C6_witness :
    (∃ m, decode_base64_audio badB64Env exampleRequest.audioBase64 =
      .error (.valueError m)) ∧
    (∃ m, detect_voice badB64Env exampleRequest = .httpError 400 m) :=
  C6_decode_client_error badB64Env exampleRequest
    (Or.inl ⟨.valueError "Invalid base64-encoded string", rfl⟩)

/-- C7 counterexample: with a clip decoded at 44100 Hz whose resampling call
raises, the failure happens inside `extract_audio_features` (a
feature-extraction failure), is not caught anywhere, and the request itself
fails with HTTP 500 — contradicting the claim that no feature-extraction
failure causes the request to fail. -/
theorem C7_counterexample :
    decode_base64_audio resampleFailEnv exampleRequest.audioBase64 = .ok ([0], 44100) ∧
    extract_audio_features resampleFailEnv [0] 44100 = .error (.otherError "resample failed") ∧
    detect_voice resampleFailEnv exampleRequest =
      .httpError 500 "Internal server error: resample failed" :=
  ⟨rfl, rfl, rfl⟩

/-- C7 amended: only the scorer-internal feature computation downgrades
failures to a neutral value; a failure inside `extract_audio_features` is not
caught there and propagates, failing the request (HTTP 500 when the exception
is not a `ValueError`). -/
theorem C7_extract_failure_propagates (env : AudioEnv) (req : VoiceDetectionRequest)
    (w : List ℚ) (sr : ℕ) (m : String)
    (hdec : decode_base64_audio env req.audioBase64 = .ok (w, sr))
    (hext : extract_audio_features env w sr = .error (.otherError m)) :
    detect_voice env req = .httpError 500 ("Internal server error: " ++ m) := by
  have hbody : detectBody env req = .error (.otherError m) := by
    unfold detectBody
    rw [hdec, exBind_ok]
    simp only []
    rw [hext, exBind_error]
  unfold detect_voice
  rw [hbody]

/-- Witness for C7 amended at a concrete input: an MFCC failure inside the
extractor turns into an HTTP 500 response. -/
theorem C7_witness :
    detect_voice mfccFailEnv exampleRequest =
      .httpError 500 ("Internal server error: " ++ "mfcc failed") :=
  C7_extract_failure_propagates mfccFailEnv exampleRequest [0] 16000 "mfcc failed" rfl rfl

/-- C8: the extractor always returns sample rate 16000; on input already at
16000 Hz it performs no resampling — the returned waveform is the input
itself, the features are those of the unresampled waveform, and the result
does not depend on the environment's resampler at all. -/
theorem C8_resample_idempotent :
    (∀ (env : AudioEnv) (w : List ℚ) (sr : ℕ) (f : FeatureSet) (w2 : List ℚ) (sr2 : ℕ),
      extract_audio_features env w sr = .ok (f, w2, sr2) → sr2 = 16000) ∧
    (∀ (env : AudioEnv) (w : List ℚ),
      extract_audio_features env w 16000 =
        (computeFeatureSet env w 16000).map (fun fs => (fs, w, 16000))) ∧
    (∀ (env : AudioEnv) (r : List ℚ → ℕ → ℕ → Except PyError (List ℚ)) (w : List ℚ),
      extract_audio_features { env with resample := r } w 16000 =
        extract_audio_features env w 16000) := by
  refine ⟨?_, fun env w => rfl, fun env r w => rfl⟩
  intro env w sr f w2 sr2 h
  unfold extract_audio_features at h
  by_cases hsr : sr ≠ 16000
  · rw [if_pos hsr] at h
    cases hr : env.resample w sr 16000 with
    | error e => rw [hr] at h; simp at h
    | ok resampled =>
      rw [hr] at h
      simp only [] at h
      cases hcf : computeFeatureSet env resampled 16000 with
      | error e => rw [hcf] at h; simp [Except.map] at h
      | ok fs =>
        rw [hcf] at h
        simp only [Except.map, Except.ok.injEq, Prod.mk.injEq] at h
        exact h.2.2.symm
  · rw [if_neg hsr] at h
    cases hcf : computeFeatureSet env w sr with
    | error e => rw [hcf] at h; simp [Except.map] at h
    | ok fs =>
      rw [hcf] at h
      simp only [Except.map, Except.ok.injEq, Prod.mk.injEq] at h
      rw [← h.2.2]
      exact not_not.mp hsr

/-- Witness for C8 at a concrete input: a 44100 Hz clip comes back resampled
with sample rate 16000. -/
theorem C8_witness :
    extract_audio_features pureEnv [0] 44100 = .ok (⟨1000, 4000, 0.5, [], []⟩, [0], 16000) ∧
    (16000 : ℕ) = 16000 :=
  ⟨rfl, C8_resample_idempotent.1 pureEnv [0] 44100 ⟨1000, 4000, 0.5, [], []⟩ [0] 16000 rfl⟩
